import Mathlib

/-!
Verification of the Mego dispatch/session/event engine (`mego.go`) against its
specification.  The Go source is shallowly embedded: Go maps become
association lists with insert-or-replace semantics, the msgpack codec (an
external collaborator) is an abstract parameter, and `messageHandler`
additionally returns a trace of its observable actions (registry lookups,
writes to the connection, handlers run, and the nil-pointer dereference that
the unfinished method-not-found branch of the source runs into).
-/

namespace Mego

/-- Status codes from the constant block of mego.go (lines 13-56). -/
def StatusOK : Int := 0

/-- Status code 1: request accepted and processing. -/
def StatusProcessing : Int := 1

/-- Status code 2: the request changed nothing. -/
def StatusNoChanges : Int := 2

/-- Status code 10: chunk processed, send the next chunk. -/
def StatusFileNext : Int := 10

/-- Status code 11: abort the whole file upload. -/
def StatusFileAbort : Int := 11

/-- Status code 51: internal error. -/
def StatusError : Int := 51

/-- Status code 54: malformed request. -/
def StatusInvalid : Int := 54

/-- Status code 55: requested resource not found. -/
def StatusNotFound : Int := 55

/-- Status code 70: chunk failed, resend the same chunk. -/
def StatusFileRetry : Int := 70

/-- Status code 71: uploaded file or chunk is empty. -/
def StatusFileEmpty : Int := 71

/-- Status code 72: file too large to upload. -/
def StatusFileTooLarge : Int := 72

/-- Dynamic values stored in a session's key/value bag and in payloads
(Go `interface\x7b\x7d`), modelled as a small tagged variant per spec section 9. -/
inductive Value where
  | vint (i : Int)
  | vstr (s : String)
  | vbool (b : Bool)
  deriving DecidableEq

/-- Lookup in an association list, modelling Go map indexing `m[k]`. -/
def alookup {α : Type} : List (String × α) → String → Option α
  | [], _ => none
  | (k2, v) :: rest, k => if k2 = k then some v else alookup rest k

/-- Insert-or-replace in an association list, modelling Go map assignment
`m[k] = v`: the key set gains `k` if absent, and an existing binding for `k`
is overwritten. -/
def ainsert {α : Type} : List (String × α) → String → α → List (String × α)
  | [], k, v => [(k, v)]
  | (k2, v2) :: rest, k, v =>
      if k2 = k then (k, v) :: rest else (k2, v2) :: ainsert rest k v

/-- A handler in the model (Go `HandlerFunc`): it is observed by its label and
by whether it advances the chain (calls the context's continue operation). -/
structure MHandler where
  label : String
  advance : Bool
  deriving DecidableEq

/-- Modelled from the spec: `Context.Next` lives in a repository file absent
from the snapshot; per spec sections 4.2 and 9 the chain is a cursor plus a
continue operation that is a no-op once the chain is exhausted, with no
auto-advance after a handler returns.  `runChainAux` returns the labels of the
handlers that execute when the chain is started at its head. -/
def runChainAux : List MHandler → List String
  | [] => []
  | h :: rest => h.label :: (if h.advance then runChainAux rest else [])

/-- Engine-wide limits (mego.go lines 117-131). -/
structure EngineOption where
  MaxSize : Nat := 0
  MaxChunkSize : Nat := 0
  MaxFileSize : Nat := 0
  MaxSessions : Nat := 0
  CheckInterval : Nat := 0
  deriving DecidableEq

/-- Per-method limit overrides (mego.go lines 145-154). -/
structure MethodOption where
  MaxSize : Nat := 0
  MaxChunkSize : Nat := 0
  MaxFileSize : Nat := 0
  deriving DecidableEq

/-- Modelled from the spec: the `ChunkProcessor` interface is referenced by
mego.go but defined in a file absent from the snapshot; per spec section 4.4 a
processor is consulted per chunk and either succeeds or fails. -/
structure ChunkProcessor where
  accepts : List Nat → Bool

/-- A registered method (mego.go lines 133-143): name, ordered handler chain,
optional chunk processor, optional limit overrides (`Option *MethodOption`,
nil when no override is set). -/
structure Method where
  Name : String
  Handlers : List MHandler
  Processor : Option ChunkProcessor := none
  option : Option MethodOption := none

/-- A session (type referenced by mego.go; fields from its usage there:
`connectHandler` sets `ID`, `messageHandler` assigns `Keys`).  The back
reference to the websocket connection is represented by the `ID` under which
writes are addressed. -/
structure Session where
  ID : String
  Keys : List (String × Value) := []
  deriving DecidableEq

/-- A channel of an event: its subscriber sessions (field usage
`ch.Sessions` in `Emit`). -/
structure Channel where
  Name : String := ""
  Sessions : List Session := []
  deriving DecidableEq

/-- An event (constructed in `Engine.Event`, mego.go lines 311-316) with its
channels map (field usage `ev.Channels[channel]` in `Emit`). -/
structure Event where
  Name : String
  Channels : List (String × Channel) := []
  deriving DecidableEq

/-- The error part of a response envelope (constructed in `messageHandler`,
mego.go lines 201-206). -/
structure ResponseError where
  Code : Int := 0
  Message : String := ""
  deriving DecidableEq

/-- A response envelope; unset fields keep their Go zero values. -/
structure Response where
  Event : String := ""
  Result : Option Value := none
  Error : ResponseError := {}
  deriving DecidableEq

/-- A decoded request envelope (field usage `req.Method`, `req.ID`,
`req.Params` in `messageHandler`); params stay opaque bytes, decoded on
demand by the codec. -/
structure Request where
  Method : String
  ID : Nat := 0
  Params : List Nat := []
  deriving DecidableEq

/-- The engine (mego.go lines 99-115): session registry, event registry,
method registry, options, global middleware, and the no-method chain. -/
structure Engine where
  Sessions : List (String × Session) := []
  Events : List (String × Event) := []
  Methods : List (String × Method) := []
  option : Option EngineOption := none
  handlers : List MHandler := []
  noMethod : List MHandler := []

/-- `New` (mego.go lines 71-78): a blank engine with empty registries. -/
def New : Engine :=
  { Sessions := [], Events := [], Methods := [] }

/-- `Default` (mego.go lines 80-87): documented as attaching Recovery and
Logger middleware, but its body is identical to `New` and attaches nothing. -/
def Default : Engine :=
  { Sessions := [], Events := [], Methods := [] }

/-- `connectHandler` (mego.go lines 181-192): allocate a session under a fresh
unique ID (a v4 UUID in the source, here a parameter) and store it in the
session registry; the ID is also stored on the websocket session. -/
def connectHandler (e : Engine) (id : String) : Engine :=
  { e with Sessions := ainsert e.Sessions id { ID := id, Keys := [] } }

/-- `Use` (mego.go lines 288-292): append global middleware. -/
def Engine.Use (e : Engine) (handlers : List MHandler) : Engine :=
  { e with handlers := e.handlers ++ handlers }

/-- `Len` (mego.go lines 294-297): the size of the session registry. -/
def Engine.Len (e : Engine) : Nat :=
  e.Sessions.length

/-- `NoMethod` (mego.go lines 305-309): replace the no-method chain. -/
def Engine.NoMethod (e : Engine) (handler : List MHandler) : Engine :=
  { e with noMethod := handler }

/-- `Event` (mego.go lines 311-316): declare an event with no channels. -/
def Engine.Event (e : Engine) (name : String) : Engine :=
  { e with Events := ainsert e.Events name { Name := name, Channels := [] } }

/-- `Register` (mego.go lines 318-326): store a method under its name and
return it (the Go version returns the `*Method` for further configuration). -/
def Engine.Register (e : Engine) (method : String) (handler : List MHandler) :
    Engine × Method :=
  let m : Method := { Name := method, Handlers := handler }
  ({ e with Methods := ainsert e.Methods method m }, m)

/-- `ReceiveWith` (mego.go lines 371-376): register a method and attach the
given chunk processor to it. -/
def Engine.ReceiveWith (e : Engine) (method : String) (processor : ChunkProcessor)
    (handler : List MHandler) : Engine × Method :=
  let m : Method := { Name := method, Handlers := handler, Processor := some processor }
  ({ e with Methods := ainsert e.Methods method m }, m)

/-- Modelled from the spec: `DefaultChunkProcessor` is referenced by
`Receive` but defined in a file absent from the snapshot; per spec section 4.4
the default processor buffers and assembles chunks, accepting them. -/
def DefaultChunkProcessor : ChunkProcessor :=
  { accepts := fun _ => true }

/-- `Receive` (mego.go lines 366-369): `ReceiveWith` using the default
processor. -/
def Engine.Receive (e : Engine) (method : String) (handler : List MHandler) :
    Engine × Method :=
  Engine.ReceiveWith e method DefaultChunkProcessor handler

/-- The dispatch context (type referenced by mego.go; fields from its
construction at lines 256-264: session, resolved method, correlation ID, raw
params, handler chain).  The underlying HTTP request field is omitted. -/
structure Context where
  Session : Session
  Method : Method
  ID : Nat := 0
  data : List Nat := []
  handlers : List MHandler := []

/-- The context built by `messageHandler` (mego.go lines 256-266): its chain
is the engine's global middleware followed by the method's own handlers. -/
def builtContext (e : Engine) (sess : Session) (m : Method) (req : Request) : Context :=
  { Session := sess, Method := m, ID := req.ID, data := req.Params,
    handlers := e.handlers ++ m.Handlers }

/-- `HandleSubscribe` (mego.go lines 282-286): documented as replacing the
subscription-acceptance hook, but the body returns the engine unchanged; the
`Engine` struct has no field that could store the hook. -/
def Engine.HandleSubscribe (e : Engine)
    (handler : String → String → Context → Bool) : Engine :=
  e

/-- The msgpack codec is an external collaborator (spec section 1, out of
scope), modelled abstractly: decoding a frame into a request envelope and
decoding a params payload into a key/value map, both fallible. -/
structure Codec where
  decodeRequest : List Nat → Except String Request
  decodeKeys : List Nat → Except String (List (String × Value))

/-- Observable actions of `messageHandler`: a write of a response to the
connection, a session-registry lookup, a method-registry lookup, a handler
execution, and the nil `*Method` dereference the source runs into when the
method is not found (its not-found branch at line 253 is empty and control
falls through to `method.Handlers` at line 266). -/
inductive Effect where
  | writeRaw (resp : Response)
  | lookupSession (id : String)
  | resolveMethod (name : String)
  | ranHandler (label : String)
  | panicNilMethod
  deriving DecidableEq

/-- `messageHandler` (mego.go lines 194-272).  Control flow of the source:
decode the frame, on failure write a `StatusInvalid` response and return;
read the websocket session's stored ID, silently dropping the frame when it
is absent; look up the session, silently dropping when absent; intercept the
reserved `MegoInitialize` method before any method lookup, assigning the
decoded key/value map to the session's `Keys` on decode success and returning
without a response either way (the second `MegoInitialize` case in the switch
at lines 235-248 is unreachable, and its empty `MegoSubscribe` case falls
through to ordinary method resolution); otherwise resolve the method — the
not-found branch at lines 252-254 contains only a comment, so a missing
method reaches the nil `*Method` dereference at line 266 — and run the
combined chain from index 0 when it is non-empty. -/
def messageHandler (codec : Codec) (e : Engine) (wsID : Option String)
    (msg : List Nat) : Engine × List Effect :=
  match codec.decodeRequest msg with
  | Except.error err =>
      (e, [Effect.writeRaw { Error := { Code := StatusInvalid, Message := err } }])
  | Except.ok req =>
      match wsID with
      | none => (e, [])
      | some id =>
          match alookup e.Sessions id with
          | none => (e, [Effect.lookupSession id])
          | some sess =>
              if req.Method = "MegoInitialize" then
                match codec.decodeKeys req.Params with
                | Except.ok keys =>
                    ({ e with Sessions := ainsert e.Sessions id { sess with Keys := keys } },
                     [Effect.lookupSession id])
                | Except.error _ => (e, [Effect.lookupSession id])
              else
                match alookup e.Methods req.Method with
                | none =>
                    (e, [Effect.lookupSession id, Effect.resolveMethod req.Method,
                         Effect.panicNilMethod])
                | some m =>
                    let ctx := builtContext e sess m req
                    (e, [Effect.lookupSession id, Effect.resolveMethod req.Method]
                        ++ (runChainAux ctx.handlers).map Effect.ranHandler)

/-- Errors of `Emit` (mego.go lines 58-63). -/
inductive EmitError where
  | eventNotFound
  | channelNotFound
  deriving DecidableEq

/-- `ErrEventNotFound` (mego.go line 60). -/
def ErrEventNotFound : EmitError := EmitError.eventNotFound

/-- `ErrChannelNotFound` (mego.go line 62). -/
def ErrChannelNotFound : EmitError := EmitError.channelNotFound

/-- `Emit` (mego.go lines 328-353): look up the event, failing with
`ErrEventNotFound`; look up the named channel, failing with
`ErrChannelNotFound`; write the event payload to each session of that
channel.  The success value collects the writes performed, addressed by
session ID.  The source's line 334 contains a syntactically incomplete
`if ch == ""` with no body — no executable empty-channel broadcast exists —
and `firstErr` is never assigned (the assignment is commented out), so the
success path reports no error. -/
def Engine.Emit (e : Engine) (event channel : String) (result : Value) :
    Except EmitError (List (String × Response)) :=
  match alookup e.Events event with
  | none => Except.error ErrEventNotFound
  | some ev =>
      match alookup ev.Channels channel with
      | none => Except.error ErrChannelNotFound
      | some ch =>
          Except.ok (ch.Sessions.map (fun s =>
            (s.ID, { Event := event, Result := some result })))

/-- Transport notifications delivered to the engine by the websocket layer. -/
inductive NetEvent where
  | connect (id : String)
  | disconnect (id : String)
  deriving DecidableEq

/-- One transport notification as handled by the engine that `Run`
(mego.go lines 156-179) wires up: `HandleMessage` and `HandleConnect` are
registered, but no disconnect handler is ever registered, so a disconnect
leaves the engine unchanged. -/
def runStep (e : Engine) : NetEvent → Engine
  | NetEvent.connect id => connectHandler e id
  | NetEvent.disconnect _ => e

/-- Fold a sequence of transport notifications through the engine. -/
def runTrace (e : Engine) : List NetEvent → Engine
  | [] => e
  | ev :: rest => runTrace (runStep e ev) rest

/-- Reference definition following the spec's words (section 8): the
currently-open connections after a trace — connects open a connection,
disconnects close it. -/
def openConnsAux : List String → List NetEvent → List String
  | acc, [] => acc
  | acc, NetEvent.connect id :: rest => openConnsAux (acc ++ [id]) rest
  | acc, NetEvent.disconnect id :: rest =>
      openConnsAux (acc.filter (fun x => x ≠ id)) rest

/-- Modelled from the spec: effective chunk ceiling (section 4.4) — the
method's override if set, else the engine-wide default. -/
def effMaxChunkSize (eo : EngineOption) (m : Method) : Nat :=
  match m.option with
  | some o => o.MaxChunkSize
  | none => eo.MaxChunkSize

/-- Modelled from the spec: effective file ceiling (section 4.4) — the
method's override if set, else the engine-wide default. -/
def effMaxFileSize (eo : EngineOption) (m : Method) : Nat :=
  match m.option with
  | some o => o.MaxFileSize
  | none => eo.MaxFileSize

/-- Modelled from the spec: the chunk upload state machine is absent from the
snapshot (only `ReceiveWith` and the limit-option structs are present); the
per-chunk transition rules follow spec section 4.4.  Given the effective
limits, the running byte total, the incoming chunk's size and the processor's
verdict, return the response status and the new running total: an empty chunk
is rejected with `StatusFileEmpty`; a chunk over the chunk ceiling, or whose
addition would push the total over the file ceiling, is rejected with
`StatusFileTooLarge` without advancing the total; otherwise processor success
advances the total and answers `StatusFileNext`, processor failure answers
`StatusFileRetry` without advancing. -/
def receiveChunk (maxChunk maxFile : Nat) (total : Nat) (size : Nat)
    (procOk : Bool) : Int × Nat :=
  if size = 0 then (StatusFileEmpty, total)
  else if maxChunk < size then (StatusFileTooLarge, total)
  else if maxFile < total + size then (StatusFileTooLarge, total)
  else if procOk then (StatusFileNext, total + size)
  else (StatusFileRetry, total)

/-! Concrete fixtures used to evaluate the model. -/

/-- Fixture: handler A, advancing. -/
def hA : MHandler := { label := "A", advance := true }

/-- Fixture: handler B, advancing. -/
def hB : MHandler := { label := "B", advance := true }

/-- Fixture: handler B, not advancing. -/
def hBstop : MHandler := { label := "B", advance := false }

/-- Fixture: handler C, advancing. -/
def hC : MHandler := { label := "C", advance := true }

/-- Fixture: handler D, advancing. -/
def hD : MHandler := { label := "D", advance := true }

/-- Fixture: the handler of the configured no-method chain. -/
def nmHandler : MHandler := { label := "NM", advance := true }

/-- Fixture: a codec that decodes every frame to the given request and fails
to decode params as keys. -/
def reqCodec (req : Request) : Codec :=
  { decodeRequest := fun _ => Except.ok req,
    decodeKeys := fun _ => Except.error "not a key map" }

/-- Fixture: a codec that decodes every frame to the given request and every
params payload to the given key map. -/
def keysCodec (req : Request) (keys : List (String × Value)) : Codec :=
  { decodeRequest := fun _ => Except.ok req,
    decodeKeys := fun _ => Except.ok keys }

/-- Fixture: a codec whose request decoding always fails with the given
message. -/
def failCodec (err : String) : Codec :=
  { decodeRequest := fun _ => Except.error err,
    decodeKeys := fun _ => Except.error err }

/-- Fixture: a request for the registered method `Sum`. -/
def sumReq : Request := { Method := "Sum", ID := 7 }

/-- Fixture: a request for the unregistered method `Ghost`. -/
def ghostReq : Request := { Method := "Ghost", ID := 9 }

/-- Fixture: a request for the reserved method `MegoInitialize`. -/
def initReq : Request := { Method := "MegoInitialize", ID := 1 }

/-- Fixture: engine with one connected session `s`, global middleware
`[A, B]` (both advancing) and method `Sum` with chain `[C, D]`. -/
def chainEngineA : Engine :=
  (((connectHandler New "s").Use [hA, hB]).Register "Sum" [hC, hD]).1

/-- Fixture: the `Sum` method as registered in `chainEngineA`. -/
def sumMethod : Method :=
  (((connectHandler New "s").Use [hA, hB]).Register "Sum" [hC, hD]).2

/-- Fixture: like `chainEngineA` but middleware `B` does not advance. -/
def chainEngineB : Engine :=
  (((connectHandler New "s").Use [hA, hBstop]).Register "Sum" [hC, hD]).1

/-- Fixture: engine with one connected session `s`, global middleware `[A]`,
a configured no-method chain, and method `Sum` registered — but no method
`Ghost`. -/
def ghostEngine : Engine :=
  ((((connectHandler New "s").Use [hA]).NoMethod [nmHandler]).Register "Sum" [hC]).1

/-- Fixture: a session `s` whose key bag already holds `a`. -/
def sessA : Session := { ID := "s", Keys := [("a", Value.vint 1)] }

/-- Fixture: engine holding `sessA`. -/
def engA : Engine := { New with Sessions := [("s", sessA)] }

/-- Fixture: session s1 with no keys. -/
def s1 : Session := { ID := "s1" }

/-- Fixture: session s2 with no keys. -/
def s2 : Session := { ID := "s2" }

/-- Fixture: session s3 with no keys. -/
def s3 : Session := { ID := "s3" }

/-- Fixture: engine with event `chat` having channel `room1` subscribed by
s1 and s2 and channel `room2` subscribed by s3 (the subscribe path of the
engine is unimplemented, so the registry state is given directly). -/
def chatEngine : Engine :=
  { New with Events :=
      [("chat", { Name := "chat", Channels :=
        [("room1", { Name := "room1", Sessions := [s1, s2] }),
         ("room2", { Name := "room2", Sessions := [s3] })] })] }

/-- Fixture: engine-wide limits with chunk ceiling 10 and file ceiling 100. -/
def eo10 : EngineOption := { MaxChunkSize := 10, MaxFileSize := 100 }

/-- Fixture: an upload method created through `ReceiveWith` (hence with no
per-method override). -/
def uploadMethod : Method :=
  (Engine.ReceiveWith New "Upload" DefaultChunkProcessor []).2

/-- Claim C1: the spec (and the source's own comments at lines 253 and 305)
say a request for an unregistered, unreserved method is answered by the
configured no-method chain.  The source's not-found branch is empty, so
dispatch of `Ghost` falls through to the nil `*Method` dereference: the
effect trace ends in the panic, the no-method handler `NM` never runs, the
global middleware `A` never runs, even though the no-method chain is
configured. -/
theorem C1_unregistered_method_panics :
    (messageHandler (reqCodec ghostReq) ghostEngine (some "s") []).2 =
      [Effect.lookupSession "s", Effect.resolveMethod "Ghost", Effect.panicNilMethod] ∧
    Effect.ranHandler "NM" ∉ (messageHandler (reqCodec ghostReq) ghostEngine (some "s") []).2 ∧
    Effect.ranHandler "A" ∉ (messageHandler (reqCodec ghostReq) ghostEngine (some "s") []).2 ∧
    ghostEngine.noMethod = [nmHandler] :=
  ⟨rfl, by decide, by decide, rfl⟩

/-- Claim C2 counterexample: a `MegoInitialize` request does not merge the
decoded pairs into the session's `Keys` — the assignment `sess.Keys = keys`
replaces the bag wholesale.  Session `s` holds key `a` beforehand; after a
`MegoInitialize` whose payload decodes to key `b` only, key `a` is gone. -/
theorem C2_init_replaces_keys_cx :
    alookup engA.Sessions "s" = some { ID := "s", Keys := [("a", Value.vint 1)] } ∧
    (messageHandler (keysCodec initReq [("b", Value.vint 2)]) engA (some "s") []).1.Sessions =
      [("s", { ID := "s", Keys := [("b", Value.vint 2)] })] :=
  ⟨rfl, rfl⟩

/-- Claim C2 as amended: a `MegoInitialize` request is intercepted before any
method lookup; on params-decode success the decoded key/value pairs replace
the session's `Keys` wholesale (keys not named in the payload are discarded);
no user handler runs and no response is written. -/
theorem C2_init_replaces_keys
    (codec : Codec) (e : Engine) (id : String) (msg : List Nat) (req : Request)
    (sess : Session) (keys : List (String × Value))
    (hdec : codec.decodeRequest msg = Except.ok req)
    (hm : req.Method = "MegoInitialize")
    (hs : alookup e.Sessions id = some sess)
    (hk : codec.decodeKeys req.Params = Except.ok keys) :
    messageHandler codec e (some id) msg =
      ({ e with Sessions := ainsert e.Sessions id { sess with Keys := keys } },
       [Effect.lookupSession id]) ∧
    (∀ r, Effect.writeRaw r ∉ (messageHandler codec e (some id) msg).2) ∧
    (∀ l, Effect.ranHandler l ∉ (messageHandler codec e (some id) msg).2) ∧
    (∀ n, Effect.resolveMethod n ∉ (messageHandler codec e (some id) msg).2) := by
  have h1 : messageHandler codec e (some id) msg =
      ({ e with Sessions := ainsert e.Sessions id { sess with Keys := keys } },
       [Effect.lookupSession id]) := by
    simp [messageHandler, hdec, hm, hs, hk]
  refine ⟨h1, ?_, ?_, ?_⟩ <;> intro x <;> simp [h1]

/-- Claim C2 witness: the amended statement evaluated on the concrete
engine `engA` and a payload decoding to key `b`. -/
theorem C2_init_replaces_keys_witness :
    (keysCodec initReq [("b", Value.vint 2)]).decodeRequest [] = Except.ok initReq ∧
    messageHandler (keysCodec initReq [("b", Value.vint 2)]) engA (some "s") [] =
      ({ engA with Sessions := (ainsert engA.Sessions "s"
          { sessA with Keys := [("b", Value.vint 2)] }) },
       [Effect.lookupSession "s"]) :=
  ⟨rfl, (C2_init_replaces_keys (keysCodec initReq [("b", Value.vint 2)]) engA "s" []
      initReq sessA [("b", Value.vint 2)] rfl rfl rfl rfl).1⟩

/-- Claim C3: for a dispatched request resolving to a registered method, the
built context's chain is the engine's global middleware followed by the
method's handlers, the executed handlers are exactly the run of that combined
chain from its head; concretely, with global middleware `[A, B]` and method
chain `[C, D]` the execution order is `A, B, C, D` when every handler
advances, and only `A, B` when `B` does not advance. -/
theorem C3_chain_order
    (codec : Codec) (e : Engine) (id : String) (msg : List Nat) (req : Request)
    (sess : Session) (m : Method)
    (hdec : codec.decodeRequest msg = Except.ok req)
    (hm : ¬ req.Method = "MegoInitialize")
    (hs : alookup e.Sessions id = some sess)
    (hr : alookup e.Methods req.Method = some m) :
    (builtContext e sess m req).handlers = e.handlers ++ m.Handlers ∧
    (messageHandler codec e (some id) msg).2 =
      [Effect.lookupSession id, Effect.resolveMethod req.Method]
        ++ (runChainAux (e.handlers ++ m.Handlers)).map Effect.ranHandler ∧
    (messageHandler (reqCodec sumReq) chainEngineA (some "s") []).2 =
      [Effect.lookupSession "s", Effect.resolveMethod "Sum", Effect.ranHandler "A",
       Effect.ranHandler "B", Effect.ranHandler "C", Effect.ranHandler "D"] ∧
    (messageHandler (reqCodec sumReq) chainEngineB (some "s") []).2 =
      [Effect.lookupSession "s", Effect.resolveMethod "Sum", Effect.ranHandler "A",
       Effect.ranHandler "B"] := by
  refine ⟨rfl, ?_, rfl, rfl⟩
  simp [messageHandler, builtContext, hdec, hm, hs, hr]

/-- Claim C3 witness: the general part evaluated on the concrete engine with
middleware `[A, B]` and method `Sum` with chain `[C, D]`. -/
theorem C3_chain_order_witness :
    ¬ sumReq.Method = "MegoInitialize" ∧
    (messageHandler (reqCodec sumReq) chainEngineA (some "s") []).2 =
      [Effect.lookupSession "s", Effect.resolveMethod "Sum"]
        ++ (runChainAux (chainEngineA.handlers ++ sumMethod.Handlers)).map Effect.ranHandler :=
  ⟨by decide, (C3_chain_order (reqCodec sumReq) chainEngineA "s" [] sumReq
      { ID := "s", Keys := [] } sumMethod rfl (by decide) rfl rfl).2.1⟩

/-- Claim C4: the spec (and the doc comment of `Emit` at line 328) says an
empty channel name broadcasts to the union of the event's channels'
subscribers.  The source contains only a syntactically incomplete
`if ch == ""` and no broadcast: on an event with subscribers in `room1` and
`room2`, emitting with the empty channel name fails with
`ErrChannelNotFound` and delivers nothing, although the event exists and
emitting to the named channel `room1` does deliver to its subscribers. -/
theorem C4_empty_channel_no_broadcast :
    Engine.Emit chatEngine "chat" "" (Value.vint 0) = Except.error ErrChannelNotFound ∧
    (alookup chatEngine.Events "chat").isSome = true ∧
    Engine.Emit chatEngine "chat" "room1" (Value.vint 0) =
      Except.ok [("s1", { Event := "chat", Result := some (Value.vint 0) }),
                 ("s2", { Event := "chat", Result := some (Value.vint 0) })] :=
  ⟨rfl, rfl, rfl⟩

/-- Claim C5: emitting to an event name absent from the Events registry
returns `ErrEventNotFound`, for every channel name and payload, and no write
list is produced. -/
theorem C5_emit_unknown_event (e : Engine) (event channel : String) (v : Value)
    (h : alookup e.Events event = none) :
    Engine.Emit e event channel v = Except.error ErrEventNotFound ∧
    ∀ ws, ¬ Engine.Emit e event channel v = Except.ok ws := by
  have h1 : Engine.Emit e event channel v = Except.error ErrEventNotFound := by
    simp [Engine.Emit, h]
  exact ⟨h1, by simp [h1]⟩

/-- Claim C5 witness: emitting the undeclared event `news` on a blank
engine. -/
theorem C5_emit_unknown_event_witness :
    alookup New.Events "news" = none ∧
    Engine.Emit New "news" "room" (Value.vint 3) = Except.error ErrEventNotFound :=
  ⟨rfl, (C5_emit_unknown_event New "news" "room" (Value.vint 3) rfl).1⟩

/-- Claim C6: the spec (and the doc comment of `Len` at line 294, and the
source's own note at line 232 about removing disconnected clients) says the
session registry's size equals the number of open connections.  `Run`
registers no disconnect handler, so after a connect followed by the matching
disconnect the registry still holds one session while zero connections are
open. -/
theorem C6_disconnect_leaks_session :
    (runTrace New [NetEvent.connect "a", NetEvent.disconnect "a"]).Len = 1 ∧
    openConnsAux [] [NetEvent.connect "a", NetEvent.disconnect "a"] = [] ∧
    ¬ (runTrace New [NetEvent.connect "a", NetEvent.disconnect "a"]).Len =
        (openConnsAux [] [NetEvent.connect "a", NetEvent.disconnect "a"]).length :=
  ⟨rfl, by decide, by decide⟩

/-- Claim C7: the source's `HandleSubscribe` is documented (lines 282-283) as
replacing the subscription-acceptance check, but it returns the engine
unchanged for every hook — the `Engine` struct has no field to store the
hook, so no subscribe attempt can ever consult it. -/
theorem C7_handleSubscribe_ignored (e : Engine)
    (h : String → String → Context → Bool) :
    Engine.HandleSubscribe e h = e :=
  rfl

/-- Claim C8: a frame whose bytes fail to decode into a request envelope is
answered with a `StatusInvalid` response carrying the decode error message,
the engine state is untouched, and no session lookup and no method
resolution happen for that frame. -/
theorem C8_decode_failure_invalid
    (codec : Codec) (e : Engine) (wsID : Option String) (msg : List Nat) (err : String)
    (hdec : codec.decodeRequest msg = Except.error err) :
    messageHandler codec e wsID msg =
      (e, [Effect.writeRaw { Error := { Code := StatusInvalid, Message := err } }]) ∧
    (∀ i, Effect.lookupSession i ∉ (messageHandler codec e wsID msg).2) ∧
    (∀ n, Effect.resolveMethod n ∉ (messageHandler codec e wsID msg).2) := by
  have h1 : messageHandler codec e wsID msg =
      (e, [Effect.writeRaw { Error := { Code := StatusInvalid, Message := err } }]) := by
    simp [messageHandler, hdec]
  refine ⟨h1, ?_, ?_⟩ <;> intro x <;> simp [h1]

/-- Claim C8 witness: a codec that always fails with message `boom`. -/
theorem C8_decode_failure_invalid_witness :
    (failCodec "boom").decodeRequest [] = Except.error "boom" ∧
    messageHandler (failCodec "boom") New (some "s") [] =
      (New, [Effect.writeRaw { Error := { Code := StatusInvalid, Message := "boom" } }]) :=
  ⟨rfl, (C8_decode_failure_invalid (failCodec "boom") New (some "s") [] "boom" rfl).1⟩

/-- Claim C9: under the effective limits (the method's override when set,
else the engine default), a chunk larger than the effective `MaxChunkSize` is
answered `StatusFileTooLarge` with the running total unchanged, and a
non-empty chunk whose addition would push the running total over the
effective `MaxFileSize` is likewise answered `StatusFileTooLarge` with the
total unchanged; a method option overrides both ceilings, a method without an
option (such as one made by `ReceiveWith`) uses the engine defaults. -/
theorem C9_chunk_limits (eo : EngineOption) (m : Method) (total size : Nat)
    (procOk : Bool) :
    (effMaxChunkSize eo m < size →
      receiveChunk (effMaxChunkSize eo m) (effMaxFileSize eo m) total size procOk =
        (StatusFileTooLarge, total)) ∧
    (0 < size → effMaxFileSize eo m < total + size →
      receiveChunk (effMaxChunkSize eo m) (effMaxFileSize eo m) total size procOk =
        (StatusFileTooLarge, total)) ∧
    (∀ mo : MethodOption,
      effMaxChunkSize eo { m with option := some mo } = mo.MaxChunkSize ∧
      effMaxFileSize eo { m with option := some mo } = mo.MaxFileSize) ∧
    (m.option = none →
      effMaxChunkSize eo m = eo.MaxChunkSize ∧ effMaxFileSize eo m = eo.MaxFileSize) ∧
    uploadMethod.option = none := by
  constructor
  · intro h
    have hz : ¬ size = 0 := by omega
    simp [receiveChunk, hz, h]
  constructor
  · intro hpos hover
    have hz : ¬ size = 0 := by omega
    by_cases hc : effMaxChunkSize eo m < size
    · simp [receiveChunk, hz, hc]
    · simp [receiveChunk, hz, hc, hover]
  refine ⟨fun mo => ⟨rfl, rfl⟩, fun hnone => ?_, rfl⟩
  simp [effMaxChunkSize, effMaxFileSize, hnone]

/-- Claim C9 witness: engine limits 10/100 with the option-free method made
by `ReceiveWith`: an 11-byte chunk is rejected with the total unchanged, and
a 5-byte chunk at running total 98 is rejected with the total unchanged. -/
theorem C9_chunk_limits_witness :
    effMaxChunkSize eo10 uploadMethod < 11 ∧
    receiveChunk (effMaxChunkSize eo10 uploadMethod) (effMaxFileSize eo10 uploadMethod)
      0 11 true = (StatusFileTooLarge, 0) ∧
    receiveChunk (effMaxChunkSize eo10 uploadMethod) (effMaxFileSize eo10 uploadMethod)
      98 5 true = (StatusFileTooLarge, 98) :=
  ⟨by decide, (C9_chunk_limits eo10 uploadMethod 0 11 true).1 (by decide),
   (C9_chunk_limits eo10 uploadMethod 98 5 true).2.1 (by decide) (by decide)⟩

/-- Claim C10: `New` and `Default` build structurally identical engines —
empty session, event and method registries, no options, no global middleware
and no no-method chain; in particular `Default` attaches no middleware
despite its documentation. -/
theorem C10_new_default_identical :
    New = Default ∧ Default.handlers = [] ∧ Default.noMethod = [] ∧
    Default.Sessions = [] ∧ Default.Events = [] ∧ Default.Methods = [] ∧
    Default.option = none :=
  ⟨rfl, rfl, rfl, rfl, rfl, rfl, rfl⟩

end Mego
